import Mathlib

/-!
Verification development for the gitgps extension
(src/src/extension.ts), a tool that turns a cursor position in a
git working tree into a shareable URL on a GitHub-style or
Bitbucket-style host.

The definitions below are a shallow embedding of the TypeScript
source: each definition carries a comment naming the source
function it translates.  External platform APIs (the editor's Uri
type, the git-url-parse library) are modelled explicitly and the
comments say so.
-/

namespace GitGps

/-- The left brace character. -/
def lbrace : Char := '\x7b'

/-- The right brace character. -/
def rbrace : Char := '\x7d'

/-- The backslash character. -/
def bslash : Char := '\\'

/-- Substring test: does `s` contain `pat` as a contiguous substring?
Models the JavaScript `String.prototype.includes` used in
`baseUri.authority.includes("bitbucket")` (extension.ts line 160). -/
def strContains (s pat : String) : Bool :=
  s.data.tails.any (fun t => pat.data.isPrefixOf t)

/-- Modelled from the spec: the editor platform's URI value type with its
scheme, authority, path, query and fragment components.  The extension
builds URIs whose inputs contain no percent-encoded characters, so the
components are kept as plain strings. -/
structure Uri where
  scheme : String
  authority : String
  path : String
  query : String
  fragment : String
deriving DecidableEq, Repr

/-- Splits a character list around the first occurrence of "://",
returning the part before and the part after it. -/
def splitSchemeAux : List Char → Option (List Char × List Char)
  | [] => none
  | c :: cs =>
    if c = ':' ∧ cs.take 2 = ['/', '/'] then some ([], cs.drop 2)
    else
      match splitSchemeAux cs with
      | some (pre, post) => some (c :: pre, post)
      | none => none

/-- Modelled from the spec: the platform's `Uri.parse` on URLs of the shape
`scheme://authority/path` (the only shape the non-custom pipeline feeds it:
the output of `refineURL`, which has no query and no fragment). -/
def Uri.parse (s : String) : Uri :=
  match splitSchemeAux s.data with
  | some (sch, rest) =>
    let auth := rest.takeWhile (fun c => c != '/')
    { scheme := ⟨sch⟩, authority := ⟨auth⟩, path := ⟨rest.drop auth.length⟩,
      query := "", fragment := "" }
  | none => { scheme := "", authority := "", path := s, query := "", fragment := "" }

/-- Drops every leading slash of a path segment, as the platform's
posix path join does before appending a segment. -/
def stripLeadingSlashes (s : String) : String :=
  ⟨s.data.dropWhile (fun c => c == '/')⟩

/-- Modelled from the spec: the platform's `Uri.joinPath`, which appends
path segments posix-style (empty segments are skipped, leading slashes of
a segment do not duplicate the separator). -/
def Uri.joinPath (u : Uri) (segs : List String) : Uri :=
  { u with
    path := segs.foldl
      (fun p seg => if seg = "" then p else p ++ "/" ++ stripLeadingSlashes seg)
      u.path }

/-- Modelled from the spec: the platform URI rendered as a string without
encoding (the form the extension copies with `toString(true)`). -/
def Uri.render (u : Uri) : String :=
  u.scheme ++ "://" ++ u.authority ++ u.path
    ++ (if u.query = "" then "" else "?" ++ u.query)
    ++ (if u.fragment = "" then "" else "#" ++ u.fragment)

/-- A configured git remote, as reported to `getRemote`:
a name plus optional fetch and push URLs (`remote.refs.fetch`,
`remote.refs.push` in extension.ts). -/
structure Remote where
  name : String
  fetchUrl : Option String
  pushUrl : Option String
deriving DecidableEq, Repr

/-- Translated from `stripBranchFromRemote` (extension.ts lines 13-15):
`remote.match(/(.+?)\/)?.[1] ?? remote`, i.e. the shortest prefix of
length at least one that is directly followed by a slash, or the whole
string when no character is followed by a later slash. -/
def stripBranchFromRemote (remote : String) : String :=
  match remote.data with
  | [] => remote
  | c :: rest =>
    if rest.contains '/' then ⟨c :: rest.takeWhile (fun x => x != '/')⟩ else remote

/-- Translated from the `try` block of `getRemote` (extension.ts lines
20-28): the remote named by the current branch's upstream, when the
upstream ref resolves (`upstreamAbbrev = some _`), its remote-name part is
non-empty, and a remote of that name exists. -/
def upstreamRemote (remotes : List Remote) (upstreamAbbrev : Option String) :
    Option Remote :=
  match upstreamAbbrev with
  | some up =>
    let headRemote := stripBranchFromRemote up
    if headRemote.length > 0 then
      remotes.find? (fun r => r.name == headRemote)
    else
      none
  | none => none

/-- Translated from `getRemote` (extension.ts lines 17-42): the upstream's
remote when available, else the remote named by the `prefferedRemote`
configuration, else the first remote, else none. -/
def getRemote (remotes : List Remote) (upstreamAbbrev : Option String)
    (preffered : String) : Option Remote :=
  match upstreamRemote remotes upstreamAbbrev with
  | some r => some r
  | none =>
    match remotes.find? (fun r => r.name == preffered) with
    | some r => some r
    | none => remotes.head?

/-- Translated from `remote.refs.fetch ?? remote.refs.push`
(extension.ts line 152). -/
def remoteUrlOf (r : Remote) : Option String :=
  match r.fetchUrl with
  | some u => some u
  | none => r.pushUrl

/-- The characters after the last at-sign, or the whole list when there is
no at-sign (drops the userinfo part of an SSH-style remote URL). -/
def afterLastAt (cs : List Char) : List Char :=
  (cs.reverse.takeWhile (fun c => c != '@')).reverse

/-- Replaces the first colon by a slash, turning the `host:path` part of an
SSH-style remote into `host/path`. -/
def colonToSlash : List Char → List Char
  | [] => []
  | c :: cs => if c = ':' then '/' :: cs else c :: colonToSlash cs

/-- Modelled from the spec: the external git-url-parse library's
re-serialization `gitUrlParse(url).toString("https")` ("Transport
normalization": parse the remote URL, which may be SSH-style
`user@host:owner/repo.git`, a bare `host:owner/repo`, or already http(s),
and re-serialize it as `https://host/path`; a `.git` suffix is kept here
and stripped by `refineURL`). -/
def gitUrlToHttps (url : String) : String :=
  let cs := url.data
  if ("https://".data).isPrefixOf cs then url
  else if ("http://".data).isPrefixOf cs then ⟨"https://".data ++ cs.drop 7⟩
  else ⟨"https://".data ++ colonToSlash (afterLastAt cs)⟩

/-- Removes one trailing ".git", as the regex replace `/\.git$/` does. -/
def stripDotGit (s : String) : String :=
  if (".git".data.reverse).isPrefixOf s.data.reverse then
    ⟨(s.data.reverse.drop 4).reverse⟩
  else s

/-- Translated from `refineURL` (extension.ts lines 52-54):
`gitUrlParse(url).toString("https").replace(/\.git$/, "")`. -/
def refineURL (url : String) : String :=
  stripDotGit (gitUrlToHttps url)

/-- Dialect of a line fragment, the `format` argument of `formatLine`. -/
inductive LineFormat where
  | github
  | bitbucket
deriving DecidableEq, Repr

/-- Translated from `formatLine` (extension.ts lines 56-77). -/
def formatLine (lineStart : Nat) (lineEnd : Option Nat) (format : LineFormat) :
    String :=
  match format with
  | LineFormat.github =>
    match lineEnd with
    | none => "L" ++ toString lineStart
    | some e =>
      if lineStart = e then "L" ++ toString lineStart
      else "L" ++ toString lineStart ++ "-L" ++ toString e
  | LineFormat.bitbucket =>
    match lineEnd with
    | none => toString lineStart
    | some e =>
      if lineStart = e then toString lineStart
      else toString lineStart ++ ":" ++ toString e

/-- Characters allowed inside a placeholder body: anything but a brace
(the regex character class excluding both braces). -/
def braceFree (c : Char) : Bool :=
  c != lbrace && c != rbrace

/-- Translated from `replaceVariablesCustomUrl` (extension.ts lines 44-46),
the global replace of the regex: a left brace not preceded by a backslash,
a lazily matched brace-free body, and a right brace not preceded by a
backslash; each match is replaced by the variable's value, or the empty
string when the variable is unknown or unset.  `prev` is the character
just before the current scan position (the regex look-behind). -/
def replaceLoop (vars : String → Option String) :
    Option Char → List Char → List Char
  | _, [] => []
  | prev, c :: cs =>
    if c = lbrace ∧ prev ≠ some bslash then
      let content := cs.takeWhile braceFree
      let rest := cs.drop content.length
      if rest.head? = some rbrace ∧ content.getLast? ≠ some bslash then
        ((vars ⟨content⟩).getD "").data ++ replaceLoop vars (some rbrace) rest.tail
      else
        c :: replaceLoop vars (some c) cs
    else
      c :: replaceLoop vars (some c) cs
termination_by _ l => l.length
decreasing_by
  · simp only [List.length_tail, List.length_drop, List.length_cons]
    omega
  · simp only [List.length_cons]
    omega
  · simp only [List.length_cons]
    omega

/-- Translated from `replaceVariablesCustomUrl` (extension.ts lines 44-46). -/
def replaceVariablesCustomUrl (customUrl : String)
    (vars : String → Option String) : String :=
  ⟨replaceLoop vars none customUrl.data⟩

/-- Removes every space character, as `.replaceAll(" ", "")` does
(extension.ts line 116). -/
def removeSpaces (s : String) : String :=
  ⟨s.data.filter (fun c => c != ' ')⟩

/-- Translated from the variables object built in `getCurrentLine`
(extension.ts lines 115-122): the custom-URL template variables
`username`, `ref`, `lineGithub`, `lineBitbucket`, `filepath`,
`folderName`; every other name is unknown. -/
def customUrlVariables (userName : Option String) (ref : String)
    (lineStart lineEnd : Nat) (filepath : String) (folderName : Option String) :
    String → Option String :=
  fun k =>
    if k = "username" then some (removeSpaces (userName.getD ""))
    else if k = "ref" then some ref
    else if k = "lineGithub" then some (formatLine lineStart (some lineEnd) LineFormat.github)
    else if k = "lineBitbucket" then some (formatLine lineStart (some lineEnd) LineFormat.bitbucket)
    else if k = "filepath" then some filepath
    else if k = "folderName" then folderName
    else none

/-- Translated from `const ref = permalink ? headCommit : headSymbolic`
(extension.ts line 111, the reference resolution of `getCurrentLine`). -/
def resolveRef (permalink : Bool) (headCommit headSymbolic : String) : String :=
  if permalink then headCommit else headSymbolic

/-- Translated from `const ref = headSymbolic === "HEAD" ? headCommit :
headSymbolic` (extension.ts line 215, the reference resolution of
`showLineDebugInfo`, carrying the comment "If we're not on a branch,
becomes perma-link"). -/
def resolveRefDebug (headCommit headSymbolic : String) : String :=
  if headSymbolic = "HEAD" then headCommit else headSymbolic

/-- The working-tree status reported by `git.status()` as consumed by
`getCurrentLine` (extension.ts lines 130-150): ahead/behind counts and the
path lists it reads. -/
structure GitStatus where
  ahead : Nat
  behind : Nat
  not_added : List String
  created : List String
  modified : List String
deriving DecidableEq, Repr

/-- The per-invocation snapshot of repository state queried by
`getCurrentLine`: the remotes, the upstream ref of the current branch
(none when `git rev-parse --abbrev-ref @{upstream}` fails), the HEAD
commit hash, the symbolic name of HEAD (the literal "HEAD" when
detached), the working-tree status, and the configured `user.name`. -/
structure RepoSnapshot where
  remotes : List Remote
  upstreamAbbrev : Option String
  headCommit : String
  headSymbolic : String
  status : GitStatus
  userName : Option String
deriving DecidableEq, Repr

/-- The gitgps configuration values read by `getCurrentLine`. -/
structure ExtConfig where
  useCustomUrl : Bool
  customUrl : String
  prefferedRemote : String
deriving DecidableEq, Repr

/-- The editor-supplied part of an invocation: the permalink flag, the
1-based selection bounds, the repository-relative file path and the
workspace folder name. -/
structure LinkRequest where
  permalink : Bool
  lineStart : Nat
  lineEnd : Nat
  filepath : String
  folderName : Option String
deriving DecidableEq, Repr

/-- The outcome of one `getCurrentLine` run: the produced URI if any, the
error messages shown, and the warning messages shown, each in order. -/
structure RunResult where
  uri : Option Uri
  errors : List String
  warnings : List String
deriving DecidableEq, Repr

/-- Error message of extension.ts line 126. -/
def noRemotesMsg : String := "Current git repository has no remotes"

/-- Warning message of extension.ts line 133. -/
def aheadMsg : String :=
  "Git HEAD is ahead of upstream, line numbers will most likely be wrong"

/-- Warning message of extension.ts line 137. -/
def behindMsg : String :=
  "Git HEAD is behind upstream, line numbers will most likely be wrong"

/-- Error message of extension.ts line 141. -/
def untrackedMsg : String := "Current file is untracked, and has no remote URL"

/-- Warning message of extension.ts lines 146-149 (after `oneLine`
collapses the template literal's line break to a single space). -/
def modifiedMsg : String :=
  "Current file is modified, line numbers will most likely be wrong (we do not support partially modified files)"

/-- Error message of extension.ts line 154. -/
def noRemoteUrlMsg : String := "No remote URL"

/-- Translated from `getCurrentLine` (extension.ts lines 79-185), from the
point where the repository snapshot has been collected (the active-editor
and is-a-repository guards are the snapshot collection itself).  Returns
the produced URI together with the error and warning messages shown. -/
def getCurrentLine (cfg : ExtConfig) (snap : RepoSnapshot) (req : LinkRequest) :
    RunResult :=
  let ref := resolveRef req.permalink snap.headCommit snap.headSymbolic
  if cfg.useCustomUrl then
    { uri := some (Uri.parse (replaceVariablesCustomUrl cfg.customUrl
        (customUrlVariables snap.userName ref req.lineStart req.lineEnd
          req.filepath req.folderName))),
      errors := [], warnings := [] }
  else
    match getRemote snap.remotes snap.upstreamAbbrev cfg.prefferedRemote with
    | none => { uri := none, errors := [noRemotesMsg], warnings := [] }
    | some remote =>
      let w1 := if snap.status.ahead > 0 then [aheadMsg] else []
      let w2 := if snap.status.behind > 0 then [behindMsg] else []
      if snap.status.not_added.contains req.filepath
          || snap.status.created.contains req.filepath then
        { uri := none, errors := [untrackedMsg], warnings := w1 ++ w2 }
      else
        let w3 := if snap.status.modified.contains req.filepath then [modifiedMsg] else []
        match remoteUrlOf remote with
        | none => { uri := none, errors := [noRemoteUrlMsg], warnings := w1 ++ w2 ++ w3 }
        | some remoteUrl =>
          let baseUri := Uri.parse (refineURL remoteUrl)
          let isBitbucket := strContains baseUri.authority "bitbucket"
          let line := formatLine req.lineStart (some req.lineEnd)
            (if isBitbucket then LineFormat.bitbucket else LineFormat.github)
          let uri :=
            if isBitbucket then
              { baseUri.joinPath ["src", snap.headCommit, req.filepath] with
                  query := "at=" ++ snap.headSymbolic,
                  fragment := "lines-" ++ line }
            else
              { baseUri.joinPath ["/blob", ref, req.filepath] with
                  fragment := line }
          { uri := some uri, errors := [], warnings := w1 ++ w2 ++ w3 }

/-- The observable effects of `copyCurrentLine` (extension.ts lines
319-330): what is written to the clipboard (nothing when `getCurrentLine`
produced no URI) and the status bar item, which is created, filled with
its message and shown unconditionally. -/
structure CopyOutcome where
  clipboard : Option String
  statusBarText : String
  statusBarShown : Bool
deriving DecidableEq, Repr

/-- Translated from `copyCurrentLine` (extension.ts lines 319-330),
as a function of the result of `getCurrentLine`. -/
def copyCurrentLine (res : Option Uri) : CopyOutcome :=
  { clipboard := res.map Uri.render,
    statusBarText := "Successfully copied to clipboard!",
    statusBarShown := true }

/-- Two strings with the same character data are equal. -/
theorem strExt {a b : String} (h : a.data = b.data) : a = b := by
  cases a; cases b; exact congrArg String.mk h

/-- Character data of an appended string. -/
theorem strData_append (a b : String) : (a ++ b).data = a.data ++ b.data := rfl

/-- The URI produced by `Uri.parse` always has an empty query component. -/
theorem parse_query_empty (s : String) : (Uri.parse s).query = "" := by
  rcases h : splitSchemeAux s.data with _ | ⟨pre, post⟩ <;> simp [Uri.parse, h]

/-- C5: for every snapshot, remote selection follows the priority order:
the remote tracked as upstream by the current branch whenever a remote of
that name exists (regardless of the preferred-remote setting, which is
universally quantified here); otherwise the remote named by the
preferred-remote setting if it exists; otherwise the first remote of the
collection (`List.head?`, which is `none` exactly when no remotes exist). -/
theorem getRemote_priority (remotes : List Remote) (upAbbrev : Option String)
    (pref : String) :
    (∀ u r, upAbbrev = some u → (stripBranchFromRemote u).length > 0 →
        remotes.find? (fun x => x.name == stripBranchFromRemote u) = some r →
        getRemote remotes upAbbrev pref = some r)
    ∧ (upstreamRemote remotes upAbbrev = none →
        ∀ r, remotes.find? (fun x => x.name == pref) = some r →
          getRemote remotes upAbbrev pref = some r)
    ∧ (upstreamRemote remotes upAbbrev = none →
        remotes.find? (fun x => x.name == pref) = none →
        getRemote remotes upAbbrev pref = remotes.head?) := by
  refine ⟨?_, ?_, ?_⟩
  · intro u r hu hlen hfind
    subst hu
    simp [getRemote, upstreamRemote, hlen, hfind]
  · intro hup r hfind
    simp [getRemote, hup, hfind]
  · intro hup hfind
    simp [getRemote, hup, hfind]

/-- Witness for C5: with remotes `origin` and `fork` and the current
branch tracking `fork/main`, the upstream remote `fork` is selected even
though the preferred remote is `origin`. -/
theorem getRemote_priority_witness :
    getRemote
      [{ name := "origin", fetchUrl := none, pushUrl := none },
       { name := "fork", fetchUrl := none, pushUrl := none }]
      (some "fork/main") "origin"
      = some { name := "fork", fetchUrl := none, pushUrl := none } :=
  (getRemote_priority
      [{ name := "origin", fetchUrl := none, pushUrl := none },
       { name := "fork", fetchUrl := none, pushUrl := none }]
      (some "fork/main") "origin").1
    "fork/main" { name := "fork", fetchUrl := none, pushUrl := none }
    rfl (by decide) (by decide)

/-- C1: evaluation of `getCurrentLine` at a detached-HEAD snapshot
(`headSymbolic` is the literal "HEAD") with `permalink = false` and a
GitHub-style remote.  The produced URL embeds the literal string "HEAD"
as its reference (`/blob/HEAD/...`) instead of falling back to
`headCommit` ("abc123"): `resolveRef` (extension.ts line 111) has no
detached-HEAD fallback, while the sibling resolution of
`showLineDebugInfo` (extension.ts line 215, `resolveRefDebug` here) does
fall back to the commit on the same input. -/
theorem getCurrentLine_detached_embeds_literal_head :
    (getCurrentLine
        { useCustomUrl := false, customUrl := "", prefferedRemote := "origin" }
        { remotes := [{ name := "origin",
                        fetchUrl := some "git@github.com:owner/repo.git",
                        pushUrl := none }],
          upstreamAbbrev := none, headCommit := "abc123", headSymbolic := "HEAD",
          status := { ahead := 0, behind := 0, not_added := [], created := [],
                      modified := [] },
          userName := none }
        { permalink := false, lineStart := 1, lineEnd := 1, filepath := "x.ts",
          folderName := none }).uri
      = some { scheme := "https", authority := "github.com",
               path := "/owner/repo/blob/HEAD/x.ts", query := "", fragment := "L1" }
    ∧ resolveRef false "abc123" "HEAD" = "HEAD"
    ∧ resolveRefDebug "abc123" "HEAD" = "abc123"
    ∧ ("abc123" : String) ≠ "HEAD" := by
  refine ⟨rfl, rfl, rfl, by decide⟩

/-- C2 counterexample: an invocation with custom-URL mode enabled and an
untracked current file (the file is in `status.not_added`) still produces
a URL and reports no error: the custom-URL branch of `getCurrentLine`
returns before any working-tree status check. -/
theorem customUrl_bypasses_untracked_check :
    ((getCurrentLine
        { useCustomUrl := true, customUrl := "https://example.com/link",
          prefferedRemote := "origin" }
        { remotes := [], upstreamAbbrev := none, headCommit := "abc123",
          headSymbolic := "main",
          status := { ahead := 0, behind := 0, not_added := ["x.ts"], created := [],
                      modified := [] },
          userName := none }
        { permalink := false, lineStart := 1, lineEnd := 1, filepath := "x.ts",
          folderName := none }).uri).isSome = true
    ∧ (getCurrentLine
        { useCustomUrl := true, customUrl := "https://example.com/link",
          prefferedRemote := "origin" }
        { remotes := [], upstreamAbbrev := none, headCommit := "abc123",
          headSymbolic := "main",
          status := { ahead := 0, behind := 0, not_added := ["x.ts"], created := [],
                      modified := [] },
          userName := none }
        { permalink := false, lineStart := 1, lineEnd := 1, filepath := "x.ts",
          folderName := none }).errors = []
    ∧ (["x.ts"] : List String).contains "x.ts" = true :=
  ⟨rfl, rfl, rfl⟩

/-- C2 amended: in non-custom-URL mode, whenever the current file is
untracked (listed in `status.not_added`), the pipeline produces no URL,
and whenever a remote was selected, it aborts with exactly the
untracked-file error. -/
theorem untracked_aborts_in_standard_mode (cfg : ExtConfig) (snap : RepoSnapshot)
    (req : LinkRequest) (hcu : cfg.useCustomUrl = false)
    (hnt : snap.status.not_added.contains req.filepath = true) :
    (getCurrentLine cfg snap req).uri = none
    ∧ (∀ r, getRemote snap.remotes snap.upstreamAbbrev cfg.prefferedRemote = some r →
        (getCurrentLine cfg snap req).errors = [untrackedMsg]) := by
  have hnt' : req.filepath ∈ snap.status.not_added := by simpa using hnt
  constructor
  · rcases hgr : getRemote snap.remotes snap.upstreamAbbrev cfg.prefferedRemote with _ | r
    · simp [getCurrentLine, hcu, hgr]
    · simp [getCurrentLine, hcu, hgr, hnt']
  · intro r hgr
    simp [getCurrentLine, hcu, hgr, hnt']

/-- Witness for the amended C2: a concrete non-custom invocation with an
untracked file and a selectable remote aborts with the untracked-file
error and no URL. -/
theorem untracked_aborts_in_standard_mode_witness :
    (getCurrentLine
        { useCustomUrl := false, customUrl := "", prefferedRemote := "origin" }
        { remotes := [{ name := "origin",
                        fetchUrl := some "git@github.com:owner/repo.git",
                        pushUrl := none }],
          upstreamAbbrev := none, headCommit := "abc123", headSymbolic := "main",
          status := { ahead := 0, behind := 0, not_added := ["x.ts"], created := [],
                      modified := [] },
          userName := none }
        { permalink := false, lineStart := 1, lineEnd := 1, filepath := "x.ts",
          folderName := none }).uri = none
    ∧ (getCurrentLine
        { useCustomUrl := false, customUrl := "", prefferedRemote := "origin" }
        { remotes := [{ name := "origin",
                        fetchUrl := some "git@github.com:owner/repo.git",
                        pushUrl := none }],
          upstreamAbbrev := none, headCommit := "abc123", headSymbolic := "main",
          status := { ahead := 0, behind := 0, not_added := ["x.ts"], created := [],
                      modified := [] },
          userName := none }
        { permalink := false, lineStart := 1, lineEnd := 1, filepath := "x.ts",
          folderName := none }).errors = [untrackedMsg] := by
  have h := untracked_aborts_in_standard_mode
    { useCustomUrl := false, customUrl := "", prefferedRemote := "origin" }
    { remotes := [{ name := "origin",
                    fetchUrl := some "git@github.com:owner/repo.git",
                    pushUrl := none }],
      upstreamAbbrev := none, headCommit := "abc123", headSymbolic := "main",
      status := { ahead := 0, behind := 0, not_added := ["x.ts"], created := [],
                  modified := [] },
      userName := none }
    { permalink := false, lineStart := 1, lineEnd := 1, filepath := "x.ts",
      folderName := none } rfl rfl
  exact ⟨h.1, h.2 { name := "origin",
                    fetchUrl := some "git@github.com:owner/repo.git",
                    pushUrl := none } rfl⟩

/-- C9: in non-custom-URL mode, a file that is newly added to the index
(listed in `status.created`) but never committed is treated like an
untracked file: the pipeline produces no URL and, whenever a remote was
selected, aborts with exactly the untracked-file error. -/
theorem created_file_treated_as_untracked (cfg : ExtConfig) (snap : RepoSnapshot)
    (req : LinkRequest) (hcu : cfg.useCustomUrl = false)
    (hcr : snap.status.created.contains req.filepath = true) :
    (getCurrentLine cfg snap req).uri = none
    ∧ (∀ r, getRemote snap.remotes snap.upstreamAbbrev cfg.prefferedRemote = some r →
        (getCurrentLine cfg snap req).errors = [untrackedMsg]) := by
  have hcr' : req.filepath ∈ snap.status.created := by simpa using hcr
  constructor
  · rcases hgr : getRemote snap.remotes snap.upstreamAbbrev cfg.prefferedRemote with _ | r
    · simp [getCurrentLine, hcu, hgr]
    · simp [getCurrentLine, hcu, hgr, hcr']
  · intro r hgr
    simp [getCurrentLine, hcu, hgr, hcr']

/-- Witness for C9: a concrete non-custom invocation with a staged,
never-committed file and a selectable remote aborts with the
untracked-file error and no URL. -/
theorem created_file_treated_as_untracked_witness :
    (getCurrentLine
        { useCustomUrl := false, customUrl := "", prefferedRemote := "origin" }
        { remotes := [{ name := "origin",
                        fetchUrl := some "git@github.com:owner/repo.git",
                        pushUrl := none }],
          upstreamAbbrev := none, headCommit := "abc123", headSymbolic := "main",
          status := { ahead := 0, behind := 0, not_added := [], created := ["new.ts"],
                      modified := [] },
          userName := none }
        { permalink := false, lineStart := 1, lineEnd := 1, filepath := "new.ts",
          folderName := none }).uri = none
    ∧ (getCurrentLine
        { useCustomUrl := false, customUrl := "", prefferedRemote := "origin" }
        { remotes := [{ name := "origin",
                        fetchUrl := some "git@github.com:owner/repo.git",
                        pushUrl := none }],
          upstreamAbbrev := none, headCommit := "abc123", headSymbolic := "main",
          status := { ahead := 0, behind := 0, not_added := [], created := ["new.ts"],
                      modified := [] },
          userName := none }
        { permalink := false, lineStart := 1, lineEnd := 1, filepath := "new.ts",
          folderName := none }).errors = [untrackedMsg] := by
  have h := created_file_treated_as_untracked
    { useCustomUrl := false, customUrl := "", prefferedRemote := "origin" }
    { remotes := [{ name := "origin",
                    fetchUrl := some "git@github.com:owner/repo.git",
                    pushUrl := none }],
      upstreamAbbrev := none, headCommit := "abc123", headSymbolic := "main",
      status := { ahead := 0, behind := 0, not_added := [], created := ["new.ts"],
                  modified := [] },
      userName := none }
    { permalink := false, lineStart := 1, lineEnd := 1, filepath := "new.ts",
      folderName := none } rfl rfl
  exact ⟨h.1, h.2 { name := "origin",
                    fetchUrl := some "git@github.com:owner/repo.git",
                    pushUrl := none } rfl⟩

/-- C3: for every non-custom invocation whose selected remote URL
normalizes to a host containing "bitbucket", the synthesized URL is
`{base}/src/{headCommit}/{filepath}` with query `at={headSymbolic}` and
fragment `lines-{lineFragment}`: the path segment is pinned to the
literal commit hash and the symbolic name is carried only in the query
string. -/
theorem bitbucket_url_shape (cfg : ExtConfig) (snap : RepoSnapshot)
    (req : LinkRequest) (r : Remote) (url : String)
    (hcu : cfg.useCustomUrl = false)
    (hgr : getRemote snap.remotes snap.upstreamAbbrev cfg.prefferedRemote = some r)
    (hurl : remoteUrlOf r = some url)
    (hna : snap.status.not_added.contains req.filepath = false)
    (hcr : snap.status.created.contains req.filepath = false)
    (hbb : strContains (Uri.parse (refineURL url)).authority "bitbucket" = true)
    (hc1 : snap.headCommit ≠ "")
    (hc2 : stripLeadingSlashes snap.headCommit = snap.headCommit)
    (hf1 : req.filepath ≠ "")
    (hf2 : stripLeadingSlashes req.filepath = req.filepath) :
    (getCurrentLine cfg snap req).uri
      = some { scheme := (Uri.parse (refineURL url)).scheme,
               authority := (Uri.parse (refineURL url)).authority,
               path := (Uri.parse (refineURL url)).path ++ "/" ++ "src" ++ "/"
                         ++ snap.headCommit ++ "/" ++ req.filepath,
               query := "at=" ++ snap.headSymbolic,
               fragment := "lines-" ++ formatLine req.lineStart (some req.lineEnd)
                             LineFormat.bitbucket } := by
  have hna' : ¬ req.filepath ∈ snap.status.not_added := by simpa using hna
  have hcr' : ¬ req.filepath ∈ snap.status.created := by simpa using hcr
  have hsrc : stripLeadingSlashes "src" = "src" := rfl
  have hsrcne : ("src" : String) ≠ "" := by decide
  simp [getCurrentLine, hcu, hgr, hurl, hna', hcr', hbb, Uri.joinPath,
    hsrc, hsrcne, hc1, hc2, hf1, hf2]

/-- Witness for C3: the remote `git@bitbucket.org:team/repo.git` with
branch "main", head commit "abc123", file "x.go" and the single-line
selection 4-4 yields
`https://bitbucket.org/team/repo/src/abc123/x.go?at=main#lines-4`. -/
theorem bitbucket_url_shape_witness :
    ((getCurrentLine
        { useCustomUrl := false, customUrl := "", prefferedRemote := "origin" }
        { remotes := [{ name := "origin",
                        fetchUrl := some "git@bitbucket.org:team/repo.git",
                        pushUrl := none }],
          upstreamAbbrev := none, headCommit := "abc123", headSymbolic := "main",
          status := { ahead := 0, behind := 0, not_added := [], created := [],
                      modified := [] },
          userName := none }
        { permalink := false, lineStart := 4, lineEnd := 4, filepath := "x.go",
          folderName := none }).uri).map Uri.render
      = some "https://bitbucket.org/team/repo/src/abc123/x.go?at=main#lines-4" := by
  rw [bitbucket_url_shape
    { useCustomUrl := false, customUrl := "", prefferedRemote := "origin" }
    { remotes := [{ name := "origin",
                    fetchUrl := some "git@bitbucket.org:team/repo.git",
                    pushUrl := none }],
      upstreamAbbrev := none, headCommit := "abc123", headSymbolic := "main",
      status := { ahead := 0, behind := 0, not_added := [], created := [],
                  modified := [] },
      userName := none }
    { permalink := false, lineStart := 4, lineEnd := 4, filepath := "x.go",
      folderName := none }
    { name := "origin", fetchUrl := some "git@bitbucket.org:team/repo.git",
      pushUrl := none }
    "git@bitbucket.org:team/repo.git"
    rfl rfl rfl rfl rfl rfl (by decide) rfl (by decide) rfl]
  rfl

/-- C4: for every non-custom invocation whose selected remote URL
normalizes to a host not containing "bitbucket" (GitHub-style), the
synthesized URL is the normalized https base joined with
`/blob/{ref}/{filepath}`, with an empty query and the GitHub line
fragment. -/
theorem github_url_shape (cfg : ExtConfig) (snap : RepoSnapshot)
    (req : LinkRequest) (r : Remote) (url : String)
    (hcu : cfg.useCustomUrl = false)
    (hgr : getRemote snap.remotes snap.upstreamAbbrev cfg.prefferedRemote = some r)
    (hurl : remoteUrlOf r = some url)
    (hna : snap.status.not_added.contains req.filepath = false)
    (hcr : snap.status.created.contains req.filepath = false)
    (hbb : strContains (Uri.parse (refineURL url)).authority "bitbucket" = false)
    (hr1 : resolveRef req.permalink snap.headCommit snap.headSymbolic ≠ "")
    (hr2 : stripLeadingSlashes (resolveRef req.permalink snap.headCommit snap.headSymbolic)
             = resolveRef req.permalink snap.headCommit snap.headSymbolic)
    (hf1 : req.filepath ≠ "")
    (hf2 : stripLeadingSlashes req.filepath = req.filepath) :
    (getCurrentLine cfg snap req).uri
      = some { scheme := (Uri.parse (refineURL url)).scheme,
               authority := (Uri.parse (refineURL url)).authority,
               path := (Uri.parse (refineURL url)).path ++ "/" ++ "blob" ++ "/"
                         ++ resolveRef req.permalink snap.headCommit snap.headSymbolic
                         ++ "/" ++ req.filepath,
               query := "",
               fragment := formatLine req.lineStart (some req.lineEnd)
                             LineFormat.github } := by
  have hna' : ¬ req.filepath ∈ snap.status.not_added := by simpa using hna
  have hcr' : ¬ req.filepath ∈ snap.status.created := by simpa using hcr
  have hblob : stripLeadingSlashes "/blob" = "blob" := rfl
  have hblobne : ("/blob" : String) ≠ "" := by decide
  simp [getCurrentLine, hcu, hgr, hurl, hna', hcr', hbb, Uri.joinPath,
    hblob, hblobne, hr1, hr2, hf1, hf2, parse_query_empty]

/-- Witness for C4: the remote `git@github.com:owner/repo.git` (normalized
to `https://github.com/owner/repo`) with ref "main", file "src/a.ts" and
selection 12-12 yields
`https://github.com/owner/repo/blob/main/src/a.ts#L12`, and the same
inputs with selection 12-15 yield the fragment `L12-L15`. -/
theorem github_url_shape_witness :
    refineURL "git@github.com:owner/repo.git" = "https://github.com/owner/repo"
    ∧ ((getCurrentLine
        { useCustomUrl := false, customUrl := "", prefferedRemote := "origin" }
        { remotes := [{ name := "origin",
                        fetchUrl := some "git@github.com:owner/repo.git",
                        pushUrl := none }],
          upstreamAbbrev := none, headCommit := "abc123", headSymbolic := "main",
          status := { ahead := 0, behind := 0, not_added := [], created := [],
                      modified := [] },
          userName := none }
        { permalink := false, lineStart := 12, lineEnd := 12, filepath := "src/a.ts",
          folderName := none }).uri).map Uri.render
      = some "https://github.com/owner/repo/blob/main/src/a.ts#L12"
    ∧ ((getCurrentLine
        { useCustomUrl := false, customUrl := "", prefferedRemote := "origin" }
        { remotes := [{ name := "origin",
                        fetchUrl := some "git@github.com:owner/repo.git",
                        pushUrl := none }],
          upstreamAbbrev := none, headCommit := "abc123", headSymbolic := "main",
          status := { ahead := 0, behind := 0, not_added := [], created := [],
                      modified := [] },
          userName := none }
        { permalink := false, lineStart := 12, lineEnd := 15, filepath := "src/a.ts",
          folderName := none }).uri).map Uri.render
      = some "https://github.com/owner/repo/blob/main/src/a.ts#L12-L15" := by
  refine ⟨rfl, ?_, ?_⟩
  · rw [github_url_shape
      { useCustomUrl := false, customUrl := "", prefferedRemote := "origin" }
      { remotes := [{ name := "origin",
                      fetchUrl := some "git@github.com:owner/repo.git",
                      pushUrl := none }],
        upstreamAbbrev := none, headCommit := "abc123", headSymbolic := "main",
        status := { ahead := 0, behind := 0, not_added := [], created := [],
                    modified := [] },
        userName := none }
      { permalink := false, lineStart := 12, lineEnd := 12, filepath := "src/a.ts",
        folderName := none }
      { name := "origin", fetchUrl := some "git@github.com:owner/repo.git",
        pushUrl := none }
      "git@github.com:owner/repo.git"
      rfl rfl rfl rfl rfl rfl (by decide) rfl (by decide) rfl]
    rfl
  · rw [github_url_shape
      { useCustomUrl := false, customUrl := "", prefferedRemote := "origin" }
      { remotes := [{ name := "origin",
                      fetchUrl := some "git@github.com:owner/repo.git",
                      pushUrl := none }],
        upstreamAbbrev := none, headCommit := "abc123", headSymbolic := "main",
        status := { ahead := 0, behind := 0, not_added := [], created := [],
                    modified := [] },
        userName := none }
      { permalink := false, lineStart := 12, lineEnd := 15, filepath := "src/a.ts",
        folderName := none }
      { name := "origin", fetchUrl := some "git@github.com:owner/repo.git",
        pushUrl := none }
      "git@github.com:owner/repo.git"
      rfl rfl rfl rfl rfl rfl (by decide) rfl (by decide) rfl]
    rfl

/-- C7: for every non-custom invocation with `permalink = true`, the
reference embedded in the URL's path is `headCommit`, independently of
`headSymbolic` (which is unconstrained here, so the statement covers both
a branch checkout and a detached HEAD), for both host styles. -/
theorem permalink_ref_is_headCommit (cfg : ExtConfig) (snap : RepoSnapshot)
    (req : LinkRequest) (r : Remote) (url : String)
    (hper : req.permalink = true)
    (hcu : cfg.useCustomUrl = false)
    (hgr : getRemote snap.remotes snap.upstreamAbbrev cfg.prefferedRemote = some r)
    (hurl : remoteUrlOf r = some url)
    (hna : snap.status.not_added.contains req.filepath = false)
    (hcr : snap.status.created.contains req.filepath = false)
    (hc1 : snap.headCommit ≠ "")
    (hc2 : stripLeadingSlashes snap.headCommit = snap.headCommit)
    (hf1 : req.filepath ≠ "")
    (hf2 : stripLeadingSlashes req.filepath = req.filepath) :
    ((getCurrentLine cfg snap req).uri).map Uri.path
      = some ((Uri.parse (refineURL url)).path ++ "/"
          ++ (if strContains (Uri.parse (refineURL url)).authority "bitbucket"
              then "src" else "blob")
          ++ "/" ++ snap.headCommit ++ "/" ++ req.filepath) := by
  have hna' : ¬ req.filepath ∈ snap.status.not_added := by simpa using hna
  have hcr' : ¬ req.filepath ∈ snap.status.created := by simpa using hcr
  have hsrc : stripLeadingSlashes "src" = "src" := rfl
  have hsrcne : ("src" : String) ≠ "" := by decide
  have hblob : stripLeadingSlashes "/blob" = "blob" := rfl
  have hblobne : ("/blob" : String) ≠ "" := by decide
  cases hbb : strContains (Uri.parse (refineURL url)).authority "bitbucket" <;>
    simp [getCurrentLine, hper, hcu, hgr, hurl, hna', hcr', hbb, resolveRef,
      Uri.joinPath, hsrc, hsrcne, hblob, hblobne, hc1, hc2, hf1, hf2]

/-- Witness for C7: a detached-HEAD snapshot (`headSymbolic = "HEAD"`)
with `permalink = true` embeds the commit "abc123" in the blob path. -/
theorem permalink_ref_is_headCommit_witness :
    ((getCurrentLine
        { useCustomUrl := false, customUrl := "", prefferedRemote := "origin" }
        { remotes := [{ name := "origin",
                        fetchUrl := some "git@github.com:owner/repo.git",
                        pushUrl := none }],
          upstreamAbbrev := none, headCommit := "abc123", headSymbolic := "HEAD",
          status := { ahead := 0, behind := 0, not_added := [], created := [],
                      modified := [] },
          userName := none }
        { permalink := true, lineStart := 1, lineEnd := 1, filepath := "x.ts",
          folderName := none }).uri).map Uri.path
      = some "/owner/repo/blob/abc123/x.ts" := by
  rw [permalink_ref_is_headCommit
    { useCustomUrl := false, customUrl := "", prefferedRemote := "origin" }
    { remotes := [{ name := "origin",
                    fetchUrl := some "git@github.com:owner/repo.git",
                    pushUrl := none }],
      upstreamAbbrev := none, headCommit := "abc123", headSymbolic := "HEAD",
      status := { ahead := 0, behind := 0, not_added := [], created := [],
                  modified := [] },
      userName := none }
    { permalink := true, lineStart := 1, lineEnd := 1, filepath := "x.ts",
      folderName := none }
    { name := "origin", fetchUrl := some "git@github.com:owner/repo.git",
      pushUrl := none }
    "git@github.com:owner/repo.git"
    rfl rfl rfl rfl rfl rfl (by decide) rfl (by decide) rfl]
  rfl

/-- C8: for every non-custom invocation that reaches the status checks
(a remote with a URL is selected and the file is not untracked or newly
created), being ahead of upstream, behind upstream, or locally modified
never aborts the pipeline: a URL is still produced, no error is emitted,
and each of the three conditions only adds its advisory warning. -/
theorem divergence_and_modified_only_warn (cfg : ExtConfig) (snap : RepoSnapshot)
    (req : LinkRequest) (r : Remote) (url : String)
    (hcu : cfg.useCustomUrl = false)
    (hgr : getRemote snap.remotes snap.upstreamAbbrev cfg.prefferedRemote = some r)
    (hurl : remoteUrlOf r = some url)
    (hna : snap.status.not_added.contains req.filepath = false)
    (hcr : snap.status.created.contains req.filepath = false) :
    ((getCurrentLine cfg snap req).uri).isSome = true
    ∧ (getCurrentLine cfg snap req).errors = []
    ∧ (0 < snap.status.ahead → aheadMsg ∈ (getCurrentLine cfg snap req).warnings)
    ∧ (0 < snap.status.behind → behindMsg ∈ (getCurrentLine cfg snap req).warnings)
    ∧ (snap.status.modified.contains req.filepath = true →
        modifiedMsg ∈ (getCurrentLine cfg snap req).warnings) := by
  have hna' : ¬ req.filepath ∈ snap.status.not_added := by simpa using hna
  have hcr' : ¬ req.filepath ∈ snap.status.created := by simpa using hcr
  refine ⟨?_, ?_, ?_, ?_, ?_⟩
  · simp [getCurrentLine, hcu, hgr, hurl, hna', hcr']
  · simp [getCurrentLine, hcu, hgr, hurl, hna', hcr']
  · intro h
    simp [getCurrentLine, hcu, hgr, hurl, hna', hcr', h]
  · intro h
    simp [getCurrentLine, hcu, hgr, hurl, hna', hcr', h]
  · intro h
    have h' : req.filepath ∈ snap.status.modified := by simpa using h
    simp [getCurrentLine, hcu, hgr, hurl, hna', hcr', h']

/-- Witness for C8: a snapshot that is 1 ahead, 2 behind, with the current
file locally modified, still produces a URL, reports no error, and shows
all three advisory warnings. -/
theorem divergence_and_modified_only_warn_witness :
    ((getCurrentLine
        { useCustomUrl := false, customUrl := "", prefferedRemote := "origin" }
        { remotes := [{ name := "origin",
                        fetchUrl := some "git@github.com:owner/repo.git",
                        pushUrl := none }],
          upstreamAbbrev := none, headCommit := "abc123", headSymbolic := "main",
          status := { ahead := 1, behind := 2, not_added := [], created := [],
                      modified := ["x.ts"] },
          userName := none }
        { permalink := false, lineStart := 1, lineEnd := 1, filepath := "x.ts",
          folderName := none }).uri).isSome = true
    ∧ (getCurrentLine
        { useCustomUrl := false, customUrl := "", prefferedRemote := "origin" }
        { remotes := [{ name := "origin",
                        fetchUrl := some "git@github.com:owner/repo.git",
                        pushUrl := none }],
          upstreamAbbrev := none, headCommit := "abc123", headSymbolic := "main",
          status := { ahead := 1, behind := 2, not_added := [], created := [],
                      modified := ["x.ts"] },
          userName := none }
        { permalink := false, lineStart := 1, lineEnd := 1, filepath := "x.ts",
          folderName := none }).errors = []
    ∧ aheadMsg ∈ (getCurrentLine
        { useCustomUrl := false, customUrl := "", prefferedRemote := "origin" }
        { remotes := [{ name := "origin",
                        fetchUrl := some "git@github.com:owner/repo.git",
                        pushUrl := none }],
          upstreamAbbrev := none, headCommit := "abc123", headSymbolic := "main",
          status := { ahead := 1, behind := 2, not_added := [], created := [],
                      modified := ["x.ts"] },
          userName := none }
        { permalink := false, lineStart := 1, lineEnd := 1, filepath := "x.ts",
          folderName := none }).warnings
    ∧ behindMsg ∈ (getCurrentLine
        { useCustomUrl := false, customUrl := "", prefferedRemote := "origin" }
        { remotes := [{ name := "origin",
                        fetchUrl := some "git@github.com:owner/repo.git",
                        pushUrl := none }],
          upstreamAbbrev := none, headCommit := "abc123", headSymbolic := "main",
          status := { ahead := 1, behind := 2, not_added := [], created := [],
                      modified := ["x.ts"] },
          userName := none }
        { permalink := false, lineStart := 1, lineEnd := 1, filepath := "x.ts",
          folderName := none }).warnings
    ∧ modifiedMsg ∈ (getCurrentLine
        { useCustomUrl := false, customUrl := "", prefferedRemote := "origin" }
        { remotes := [{ name := "origin",
                        fetchUrl := some "git@github.com:owner/repo.git",
                        pushUrl := none }],
          upstreamAbbrev := none, headCommit := "abc123", headSymbolic := "main",
          status := { ahead := 1, behind := 2, not_added := [], created := [],
                      modified := ["x.ts"] },
          userName := none }
        { permalink := false, lineStart := 1, lineEnd := 1, filepath := "x.ts",
          folderName := none }).warnings := by
  have h := divergence_and_modified_only_warn
    { useCustomUrl := false, customUrl := "", prefferedRemote := "origin" }
    { remotes := [{ name := "origin",
                    fetchUrl := some "git@github.com:owner/repo.git",
                    pushUrl := none }],
      upstreamAbbrev := none, headCommit := "abc123", headSymbolic := "main",
      status := { ahead := 1, behind := 2, not_added := [], created := [],
                  modified := ["x.ts"] },
      userName := none }
    { permalink := false, lineStart := 1, lineEnd := 1, filepath := "x.ts",
      folderName := none }
    { name := "origin", fetchUrl := some "git@github.com:owner/repo.git",
      pushUrl := none }
    "git@github.com:owner/repo.git"
    rfl rfl rfl rfl rfl
  exact ⟨h.1, h.2.1, h.2.2.1 (by decide), h.2.2.2.1 (by decide), h.2.2.2.2 rfl⟩

/-- C6: rendering the custom-URL template
`https://x/{username}/{ref}\{kept\}#{folderName}{lineGithub}{nosuchvar}`
substitutes every unescaped placeholder with its computed value, leaves
the backslash-escaped braces (and their backslashes) literal, substitutes
the unset `folderName` and the unknown `nosuchvar` with the empty string,
and the `username` variable is the configured git identity name with all
spaces removed; the variable values are universally quantified. -/
theorem customUrl_template_rendering (un refv fp : String) (ls le : Nat) :
    replaceVariablesCustomUrl
      "https://x/{username}/{ref}\\\x7bkept\\\x7d#{folderName}{lineGithub}{nosuchvar}"
      (customUrlVariables (some un) refv ls le fp none)
    = "https://x/" ++ removeSpaces un ++ "/" ++ refv ++ "\\\x7bkept\\\x7d#"
        ++ formatLine ls (some le) LineFormat.github
    ∧ customUrlVariables (some un) refv ls le fp none "username"
        = some (removeSpaces un) := by
  constructor
  · apply strExt
    simp [replaceVariablesCustomUrl, replaceLoop, customUrlVariables, braceFree,
      lbrace, rbrace, bslash, strData_append, List.append_assoc]
  · rfl

/-- C10: the copy command's status-bar message "Successfully copied to
clipboard!" is created and shown unconditionally, for every outcome of
URL generation, including the failure outcome in which nothing was
written to the clipboard. -/
theorem copy_statusbar_unconditional (res : Option Uri) :
    (copyCurrentLine res).statusBarShown = true
    ∧ (copyCurrentLine res).statusBarText = "Successfully copied to clipboard!"
    ∧ (res = none → (copyCurrentLine res).clipboard = none) :=
  ⟨rfl, rfl, fun h => by rw [h]; rfl⟩

/-- Witness for C10: with failed URL generation (`none`), the clipboard is
not written but the success message is still shown. -/
theorem copy_statusbar_unconditional_witness :
    (copyCurrentLine none).statusBarShown = true
    ∧ (copyCurrentLine none).statusBarText = "Successfully copied to clipboard!"
    ∧ (copyCurrentLine none).clipboard = none :=
  ⟨(copy_statusbar_unconditional none).1,
   (copy_statusbar_unconditional none).2.1,
   (copy_statusbar_unconditional none).2.2 rfl⟩

end GitGps
